import Mathlib

/-!
# tuxedo_ec_napi: the webcam binding

A shallow embedding of `src/native-lib/tuxedo_ec_napi.cc`.

The file binds two functions of the vendor embedded-controller library,
`webcam_on()` and `webcam_off()`, to a JavaScript runtime. The vendor
library is not part of the repository: its two functions and the constant
`EC_SUCCESS` are parameters of the embedding (`VendorLib`). The vendor
functions act on a hardware state of an arbitrary type `σ`.

C `int` values are embedded as `Int`. The binding does no arithmetic on
them, only one equality test, so no wrap-around is involved.

`Init` writes two properties of the exports object through the runtime. The
write is the JavaScript property write: the object store holds, for every
object, its properties with their attributes, its extensibility, its
prototype chain and whether it is exotic; what setters and exotic objects do
is a parameter (`Script`), and a write can be dropped or end in an exception.
-/

namespace TuxedoEC

/-! ## The vendor library -/

/-- The two entry points of the vendor library that the binding calls. -/
inductive VendorCall where
  | webcam_on
  | webcam_off
  deriving DecidableEq, Repr

/-- The vendor library `tuxedo_ec_lib`, as declared by `tuxedo_webcam_api.h`:
the success sentinel and the two functions, each returning an `int` result
code and acting on the embedded-controller state. -/
structure VendorLib (σ : Type) where
  EC_SUCCESS : Int
  webcam_on : σ → Int × σ
  webcam_off : σ → Int × σ

/-- The world outside the binding: the embedded-controller state and the log
of the vendor calls made so far, oldest first. -/
structure World (σ : Type) where
  ec : σ
  log : List VendorCall

/-- One call of `webcam_on()`: runs the vendor function on the controller
state and records the call. -/
def logged_webcam_on {σ : Type} (lib : VendorLib σ) (w : World σ) : Int × World σ :=
  let r := lib.webcam_on w.ec
  (r.1, { ec := r.2, log := w.log ++ [VendorCall.webcam_on] })

/-- One call of `webcam_off()`: runs the vendor function on the controller
state and records the call. -/
def logged_webcam_off {σ : Type} (lib : VendorLib σ) (w : World σ) : Int × World σ :=
  let r := lib.webcam_off w.ec
  (r.1, { ec := r.2, log := w.log ++ [VendorCall.webcam_off] })

/-! ## The N-API data model -/

/-- The native callbacks this module defines; a `Function` value refers to
one of them. -/
inductive Callback where
  | webcamOn
  | webcamOff
  deriving DecidableEq, Repr

/-- Identity of a JavaScript object. -/
abbrev Handle := Nat

/-- `Napi::Value`: the JavaScript values the binding handles. -/
inductive Value where
  | undefined
  | boolean (b : Bool)
  | string (s : String)
  | function (cb : Callback)
  | object (h : Handle)
  deriving DecidableEq, Repr

/-- `Napi::Env`: a handle to the runtime instance. -/
structure Env where
  id : Nat
  deriving DecidableEq, Repr

/-- `Napi::Object`: a reference to a JavaScript object. -/
structure Object where
  handle : Handle
  deriving DecidableEq, Repr

/-- An exception thrown by script code, carrying the thrown value. -/
inductive JsError where
  | thrown (v : Value)
  deriving DecidableEq, Repr

/-- A property of an object, as far as a write is concerned: a data property
with its value and its `writable` attribute, or an accessor property with
the setter it has, if any. Setters are referred to by number. -/
inductive Property where
  | data (value : Value) (writable : Bool)
  | accessor (setter : Option Nat)
  deriving DecidableEq, Repr

/-- One JavaScript object: its own properties, whether it is extensible (a
frozen or sealed object is not), the objects of its prototype chain, nearest
first (the chain of a JavaScript object is finite and acyclic), and, for an
exotic object such as a proxy, the number of its own write behaviour. -/
structure ObjectRecord where
  props : String → Option Property
  extensible : Bool
  chain : List Handle
  exotic : Option Nat

/-- The object store of the runtime: every object by its handle. -/
abbrev Heap := Handle → ObjectRecord

/-- The script side of the runtime, which the binding does not control: what
each setter does when called with a receiver and a value, and what each
exotic object does with a write of a key and value for a receiver. Either
may change the store or throw. -/
structure Script where
  callSetter : Nat → Handle → Value → Heap → Except JsError Heap
  exoticSet : Nat → Handle → String → Value → Handle → Heap → Except JsError Heap

/-- `Napi::CallbackInfo`: what the runtime passes to a native callback. -/
structure CallbackInfo where
  args : List Value
  thisArg : Value
  Env : Env

/-- `Boolean::New(env, b)`. -/
def Boolean.New (_env : Env) (b : Bool) : Value :=
  Value.boolean b

/-- `String::New(env, s)`. -/
def String.New (_env : Env) (s : String) : Value :=
  Value.string s

/-- `Function::New(env, cb)`. -/
def Function.New (_env : Env) (cb : Callback) : Value :=
  Value.function cb

/-- The property key a value denotes when used as a key (its string
conversion, for ordinary values). -/
def Value.toPropertyKey : Value → String
  | Value.undefined => "undefined"
  | Value.boolean true => "true"
  | Value.boolean false => "false"
  | Value.string s => s
  | Value.function _ => "function () \x7b [native code] \x7d"
  | Value.object _ => "[object Object]"

/-- Where the search for a key along an object and its prototype chain
ends: nowhere, at a data property, at an accessor property, or at an exotic
object, which takes the write over. -/
inductive Slot where
  | missing
  | data (writable : Bool)
  | accessor (setter : Option Nat)
  | exotic (h : Handle) (behaviour : Nat)
  deriving DecidableEq, Repr

/-- Searches the objects of the list, in order, for the key. -/
def findSlot (heap : Heap) (k : String) : List Handle → Slot
  | [] => Slot.missing
  | h :: rest =>
    match (heap h).exotic with
    | some t => Slot.exotic h t
    | none =>
      match (heap h).props k with
      | some (Property.data _ w) => Slot.data w
      | some (Property.accessor st) => Slot.accessor st
      | none => findSlot heap k rest

/-- The store in which object `o` has the writable data property `k` with
value `v`; everything else is as in `heap`. -/
def writeOwn (heap : Heap) (o : Handle) (k : String) (v : Value) : Heap :=
  Function.update heap o
    { heap o with props := Function.update (heap o).props k (some (Property.data v true)) }

/-- The write `o[k] = v` with `o` as receiver, as the runtime performs it
for `napi_set_property`: a write that the object does not allow is dropped
without an error; a setter or an exotic object found by the search is run,
and what it throws is thrown on. -/
def setProperty (script : Script) (heap : Heap) (o : Handle) (k : String) (v : Value) :
    Except JsError Heap :=
  match findSlot heap k (o :: (heap o).chain) with
  | Slot.exotic h t => script.exoticSet t h k v o heap
  | Slot.accessor none => Except.ok heap
  | Slot.accessor (some st) => script.callSetter st o v heap
  | Slot.data false => Except.ok heap
  | _ =>
    match (heap o).props k with
    | some (Property.accessor _) => Except.ok heap
    | some (Property.data _ false) => Except.ok heap
    | some (Property.data _ true) => Except.ok (writeOwn heap o k v)
    | none => if (heap o).extensible then Except.ok (writeOwn heap o k v) else Except.ok heap

/-- `obj.Set(key, value)`: the write of the property through the runtime; an
exception of the runtime leaves the call as an error. -/
def Object.Set (script : Script) (obj : Object) (key : Value) (value : Value) (heap : Heap) :
    Except JsError Heap :=
  setProperty script heap obj.handle key.toPropertyKey value

/-! ## The binding -/

/-- `Boolean webcamOn(const CallbackInfo &info)`. -/
def webcamOn {σ : Type} (lib : VendorLib σ) (info : CallbackInfo) (w : World σ) :
    Value × World σ :=
  let r := logged_webcam_on lib w
  let result : Int := r.1
  (Boolean.New info.Env (result == lib.EC_SUCCESS), r.2)

/-- `Boolean webcamOff(const CallbackInfo &info)`. -/
def webcamOff {σ : Type} (lib : VendorLib σ) (info : CallbackInfo) (w : World σ) :
    Value × World σ :=
  let r := logged_webcam_off lib w
  let result : Int := r.1
  (Boolean.New info.Env (result == lib.EC_SUCCESS), r.2)

/-- The native code a `Function` value runs when it is called. -/
def runCallback {σ : Type} (cb : Callback) (lib : VendorLib σ) (info : CallbackInfo)
    (w : World σ) : Value × World σ :=
  match cb with
  | Callback.webcamOn => webcamOn lib info w
  | Callback.webcamOff => webcamOff lib info w

/-- `Object Init(Env env, Object exports)`: the two `Set` calls in order, an
error of the first ending the function before the second. -/
def Init (script : Script) (env : Env) (exports : Object) (heap : Heap) :
    Except JsError (Object × Heap) :=
  match exports.Set script (String.New env "webcamOn") (Function.New env Callback.webcamOn) heap with
  | Except.error e => Except.error e
  | Except.ok heap1 =>
    match exports.Set script (String.New env "webcamOff")
        (Function.New env Callback.webcamOff) heap1 with
    | Except.error e => Except.error e
    | Except.ok heap2 => Except.ok (exports, heap2)

/-! ## Objects that take a plain write -/

/-- Whether a property is a writable data property. -/
def Property.isWritableData : Property → Bool
  | Property.data _ w => w
  | Property.accessor _ => false

/-- Whether no object of the list is exotic or holds the key as anything but
a writable data property. -/
def writableAlong (heap : Heap) (k : String) (l : List Handle) : Bool :=
  l.all fun p =>
    (heap p).exotic.isNone &&
      (match (heap p).props k with
       | none => true
       | some q => q.isWritableData)

/-- Whether object `o` takes a plain write of key `k`: neither `o` nor an
object of its prototype chain is exotic or holds `k` as an accessor or as a
read-only property, and `o` is extensible or has the property already. -/
def assignable (heap : Heap) (o : Handle) (k : String) : Bool :=
  writableAlong heap k (o :: (heap o).chain) &&
    ((heap o).extensible || ((heap o).props k).isSome)

/-! ## Sample inputs -/

/-- A vendor library whose controller state counts the calls made: the first
call of either function succeeds with code `0`, every later one fails with
code `-1`. -/
def sampleLib : VendorLib Nat where
  EC_SUCCESS := 0
  webcam_on := fun s => (if s = 0 then 0 else -1, s + 1)
  webcam_off := fun s => (if s = 0 then 0 else -1, s + 1)

/-- A fresh world: no call made yet. -/
def freshWorld : World Nat :=
  { ec := 0, log := [] }

/-- A world in which two calls were already made. -/
def usedWorld : World Nat :=
  { ec := 2, log := [VendorCall.webcam_on, VendorCall.webcam_off] }

/-- A world in which three calls were already made. -/
def laterWorld : World Nat :=
  { ec := 3, log := [VendorCall.webcam_on, VendorCall.webcam_off, VendorCall.webcam_off] }

/-- A call without arguments. -/
def plainInfo : CallbackInfo :=
  { args := [], thisArg := Value.undefined, Env := { id := 0 } }

/-- A call with two arguments. -/
def busyInfo : CallbackInfo :=
  { args := [Value.boolean true, Value.string "x"], thisArg := Value.object 7,
    Env := { id := 0 } }

/-- The exports object of a module being loaded. -/
def sampleExports : Object :=
  { handle := 3 }

/-- The environment of the sample calls. -/
def sampleEnv : Env :=
  { id := 0 }

/-- A script side with one setter, number `0`, which throws the value it is
given; every other setter and every exotic object drops the write. -/
def sampleScript : Script where
  callSetter := fun st _ v heap =>
    if st = 0 then Except.error (JsError.thrown v) else Except.ok heap
  exoticSet := fun _ _ _ _ _ heap => Except.ok heap

/-- An object without properties and without prototype. -/
def emptyRecord : ObjectRecord :=
  { props := fun _ => none, extensible := true, chain := [], exotic := none }

/-- An object store with a plain exports object, `3`, which has the writable
property `version` and the prototype `1`; the prototype has the property
`toString`; another object, `5`, has a property `webcamOn`. -/
def sampleHeap : Heap :=
  fun h =>
    if h = 3 then
      { props := fun k => if k = "version" then some (Property.data (Value.string "1.0") true)
                          else none,
        extensible := true, chain := [1], exotic := none }
    else if h = 1 then
      { emptyRecord with
        props := fun k => if k = "toString" then some (Property.data Value.undefined true)
                          else none }
    else if h = 5 then
      { emptyRecord with
        props := fun k => if k = "webcamOn" then some (Property.data (Value.boolean false) true)
                          else none }
    else emptyRecord

/-- The store of `sampleHeap` with the exports object frozen: not extensible,
its property `version` read-only. -/
def frozenHeap : Heap :=
  fun h =>
    if h = 3 then
      { props := fun k => if k = "version" then some (Property.data (Value.string "1.0") false)
                          else none,
        extensible := false, chain := [1], exotic := none }
    else sampleHeap h

/-- The store of `sampleHeap` with a setter for `webcamOn`, number `0`, on the
prototype of the exports object. -/
def setterHeap : Heap :=
  fun h =>
    if h = 1 then
      { emptyRecord with
        props := fun k => if k = "webcamOn" then some (Property.accessor (some 0)) else none }
    else sampleHeap h

/-! ## Helper lemmas -/

theorem webcamOn_fst {σ : Type} (lib : VendorLib σ) (info : CallbackInfo) (w : World σ) :
    (webcamOn lib info w).1 = Value.boolean (decide ((lib.webcam_on w.ec).1 = lib.EC_SUCCESS)) := by
  simp only [webcamOn, logged_webcam_on, Boolean.New]
  rfl

theorem webcamOff_fst {σ : Type} (lib : VendorLib σ) (info : CallbackInfo) (w : World σ) :
    (webcamOff lib info w).1 = Value.boolean (decide ((lib.webcam_off w.ec).1 = lib.EC_SUCCESS)) := by
  simp only [webcamOff, logged_webcam_off, Boolean.New]
  rfl

theorem webcamOn_snd {σ : Type} (lib : VendorLib σ) (info : CallbackInfo) (w : World σ) :
    (webcamOn lib info w).2
      = { ec := (lib.webcam_on w.ec).2, log := w.log ++ [VendorCall.webcam_on] } := by
  simp [webcamOn, logged_webcam_on]

theorem webcamOff_snd {σ : Type} (lib : VendorLib σ) (info : CallbackInfo) (w : World σ) :
    (webcamOff lib info w).2
      = { ec := (lib.webcam_off w.ec).2, log := w.log ++ [VendorCall.webcam_off] } := by
  simp [webcamOff, logged_webcam_off]

theorem findSlot_of_writableAlong (heap : Heap) (k : String) (l : List Handle)
    (h : writableAlong heap k l = true) :
    findSlot heap k l = Slot.missing ∨ findSlot heap k l = Slot.data true := by
  induction l with
  | nil => exact Or.inl rfl
  | cons p rest ih =>
    simp only [writableAlong, List.all_cons, Bool.and_eq_true] at h
    obtain ⟨⟨hex, hp⟩, hrest⟩ := h
    have hex2 : (heap p).exotic = none := by
      cases hx : (heap p).exotic with
      | none => rfl
      | some t => rw [hx] at hex; simp at hex
    cases hk : (heap p).props k with
    | none =>
      have hr := ih (by simpa [writableAlong] using hrest)
      simpa [findSlot, hex2, hk] using hr
    | some q =>
      rw [hk] at hp
      cases q with
      | data v0 w =>
        simp only [Property.isWritableData] at hp
        subst hp
        exact Or.inr (by simp [findSlot, hex2, hk])
      | accessor st => simp [Property.isWritableData] at hp

theorem own_of_writableAlong (heap : Heap) (k : String) (o : Handle) (rest : List Handle)
    (h : writableAlong heap k (o :: rest) = true) :
    (heap o).props k = none ∨ ∃ v0, (heap o).props k = some (Property.data v0 true) := by
  simp only [writableAlong, List.all_cons, Bool.and_eq_true] at h
  obtain ⟨⟨_, hp⟩, _⟩ := h
  cases hk : (heap o).props k with
  | none => exact Or.inl rfl
  | some q =>
    rw [hk] at hp
    cases q with
    | data v0 w =>
      simp only [Property.isWritableData] at hp
      subst hp
      exact Or.inr ⟨v0, rfl⟩
    | accessor st => simp [Property.isWritableData] at hp

/-- On an object that takes a plain write of the key, the write binds the
key on the object itself. -/
theorem setProperty_of_assignable (script : Script) (heap : Heap) (o : Handle) (k : String)
    (v : Value) (h : assignable heap o k = true) :
    setProperty script heap o k v = Except.ok (writeOwn heap o k v) := by
  simp only [assignable, Bool.and_eq_true, Bool.or_eq_true] at h
  obtain ⟨hw, hext⟩ := h
  have hs := findSlot_of_writableAlong heap k _ hw
  have hown := own_of_writableAlong heap k o _ hw
  unfold setProperty
  rcases hown with hk | ⟨v0, hk⟩
  · have he : (heap o).extensible = true := by
      rcases hext with he | he
      · exact he
      · rw [hk] at he
        simp at he
    rcases hs with hs | hs <;> rw [hs] <;> simp [hk, he]
  · rcases hs with hs | hs <;> rw [hs] <;> simp [hk]

theorem writeOwn_same (heap : Heap) (o : Handle) (k : String) (v : Value) :
    ((writeOwn heap o k v) o).props k = some (Property.data v true) := by
  simp [writeOwn]

theorem writeOwn_other_key (heap : Heap) (o : Handle) (k k2 : String) (v : Value)
    (hne : k2 ≠ k) : ((writeOwn heap o k v) o).props k2 = (heap o).props k2 := by
  simp [writeOwn, Function.update, hne]

theorem writeOwn_other_object (heap : Heap) (o h : Handle) (k : String) (v : Value)
    (hne : h ≠ o) : (writeOwn heap o k v) h = heap h := by
  simp [writeOwn, Function.update, hne]

theorem writeOwn_props_other_key (heap : Heap) (o h : Handle) (k k2 : String) (v : Value)
    (hne : k2 ≠ k) : ((writeOwn heap o k v) h).props k2 = (heap h).props k2 := by
  by_cases hh : h = o
  · subst hh
    exact writeOwn_other_key heap h k k2 v hne
  · rw [writeOwn_other_object heap o h k v hh]

theorem writeOwn_attrs (heap : Heap) (o h : Handle) (k : String) (v : Value) :
    ((writeOwn heap o k v) h).extensible = (heap h).extensible ∧
    ((writeOwn heap o k v) h).chain = (heap h).chain ∧
    ((writeOwn heap o k v) h).exotic = (heap h).exotic := by
  by_cases hh : h = o
  · subst hh
    simp [writeOwn]
  · rw [writeOwn_other_object heap o h k v hh]
    exact ⟨rfl, rfl, rfl⟩

/-- A plain write of one key leaves an object able to take a plain write of
another key. -/
theorem assignable_writeOwn (heap : Heap) (o : Handle) (k k2 : String) (v : Value)
    (hne : k2 ≠ k) (h : assignable heap o k2 = true) :
    assignable (writeOwn heap o k v) o k2 = true := by
  have hall : ∀ l, writableAlong (writeOwn heap o k v) k2 l = writableAlong heap k2 l := by
    intro l
    simp only [writableAlong]
    congr 1
    funext p
    rw [(writeOwn_attrs heap o p k v).2.2, writeOwn_props_other_key heap o p k k2 v hne]
  simp only [assignable] at h ⊢
  rw [hall, (writeOwn_attrs heap o o k v).1, (writeOwn_attrs heap o o k v).2.1,
    writeOwn_props_other_key heap o o k k2 v hne]
  exact h

/-- On an object that takes plain writes of both keys, `Init` is the two
writes. -/
theorem Init_of_assignable (script : Script) (env : Env) (exports : Object) (heap : Heap)
    (hon : assignable heap exports.handle "webcamOn" = true)
    (hoff : assignable heap exports.handle "webcamOff" = true) :
    Init script env exports heap = Except.ok (exports,
      writeOwn (writeOwn heap exports.handle "webcamOn" (Value.function Callback.webcamOn))
        exports.handle "webcamOff" (Value.function Callback.webcamOff)) := by
  have h2 := assignable_writeOwn heap exports.handle "webcamOn" "webcamOff"
    (Value.function Callback.webcamOn) (by decide) hoff
  simp only [Init, Object.Set, String.New, Function.New, Value.toPropertyKey]
  rw [setProperty_of_assignable script heap _ _ _ hon]
  simp only []
  rw [setProperty_of_assignable script _ _ _ _ h2]

/-- On a frozen exports object `Init` succeeds and changes nothing. -/
theorem Init_frozen :
    Init sampleScript sampleEnv sampleExports frozenHeap
      = Except.ok (sampleExports, frozenHeap) := by
  simp [Init, Object.Set, String.New, Function.New, Value.toPropertyKey, setProperty,
    findSlot, frozenHeap, sampleHeap, sampleExports, emptyRecord]

/-- With a throwing setter for `webcamOn` on the prototype of the exports
object, `Init` ends with the exception of the setter. -/
theorem Init_setter_throws :
    Init sampleScript sampleEnv sampleExports setterHeap
      = Except.error (JsError.thrown (Value.function Callback.webcamOn)) := by
  simp [Init, Object.Set, String.New, Function.New, Value.toPropertyKey, setProperty,
    findSlot, setterHeap, sampleHeap, sampleExports, emptyRecord, sampleScript]

/-! ## The claims -/

/-- C1: for every vendor library (so every sentinel `EC_SUCCESS`) and every
result code `r` that `webcam_on()` returns, `webcamOn` returns the boolean
`true` exactly when `r` equals `EC_SUCCESS`, and the boolean `false` for
every other `r`. -/
theorem webcamOn_true_iff_success {σ : Type} (lib : VendorLib σ) (info : CallbackInfo)
    (w : World σ) (r : Int) (hr : (lib.webcam_on w.ec).1 = r) :
    ((webcamOn lib info w).1 = Value.boolean true ↔ r = lib.EC_SUCCESS) ∧
    ((webcamOn lib info w).1 = Value.boolean false ↔ r ≠ lib.EC_SUCCESS) := by
  subst hr
  rw [webcamOn_fst]
  constructor <;> simp

theorem webcamOn_true_iff_success_witness :
    (sampleLib.webcam_on usedWorld.ec).1 = -1 ∧
    (((webcamOn sampleLib busyInfo usedWorld).1 = Value.boolean true
        ↔ (-1 : Int) = sampleLib.EC_SUCCESS) ∧
     ((webcamOn sampleLib busyInfo usedWorld).1 = Value.boolean false
        ↔ (-1 : Int) ≠ sampleLib.EC_SUCCESS)) :=
  ⟨by decide, webcamOn_true_iff_success sampleLib busyInfo usedWorld (-1) (by decide)⟩

/-- C2: for every vendor library (so every sentinel `EC_SUCCESS`) and every
result code `r` that `webcam_off()` returns, `webcamOff` returns the boolean
`true` exactly when `r` equals `EC_SUCCESS`, and the boolean `false` for
every other `r`. -/
theorem webcamOff_true_iff_success {σ : Type} (lib : VendorLib σ) (info : CallbackInfo)
    (w : World σ) (r : Int) (hr : (lib.webcam_off w.ec).1 = r) :
    ((webcamOff lib info w).1 = Value.boolean true ↔ r = lib.EC_SUCCESS) ∧
    ((webcamOff lib info w).1 = Value.boolean false ↔ r ≠ lib.EC_SUCCESS) := by
  subst hr
  rw [webcamOff_fst]
  constructor <;> simp

theorem webcamOff_true_iff_success_witness :
    (sampleLib.webcam_off freshWorld.ec).1 = 0 ∧
    (((webcamOff sampleLib plainInfo freshWorld).1 = Value.boolean true
        ↔ (0 : Int) = sampleLib.EC_SUCCESS) ∧
     ((webcamOff sampleLib plainInfo freshWorld).1 = Value.boolean false
        ↔ (0 : Int) ≠ sampleLib.EC_SUCCESS)) :=
  ⟨by decide, webcamOff_true_iff_success sampleLib plainInfo freshWorld 0 (by decide)⟩

/-- C3: a failure of the vendor call is a value, not an error. Whatever the
result code of the vendor function, `webcamOn` and `webcamOff` return a
JavaScript boolean, and that boolean is `false` exactly when the result code
differs from `EC_SUCCESS`; and whichever exported callback the runtime runs,
the value it gets back is a boolean. -/
theorem wrappers_return_boolean {σ : Type} (lib : VendorLib σ) (info : CallbackInfo)
    (w : World σ) :
    (∃ b : Bool, (webcamOn lib info w).1 = Value.boolean b ∧
        (b = false ↔ (lib.webcam_on w.ec).1 ≠ lib.EC_SUCCESS)) ∧
    (∃ b : Bool, (webcamOff lib info w).1 = Value.boolean b ∧
        (b = false ↔ (lib.webcam_off w.ec).1 ≠ lib.EC_SUCCESS)) ∧
    (∀ cb : Callback, ∃ b : Bool, (runCallback cb lib info w).1 = Value.boolean b) := by
  refine ⟨⟨_, webcamOn_fst lib info w, by simp⟩, ⟨_, webcamOff_fst lib info w, by simp⟩, ?_⟩
  intro cb
  cases cb
  · exact ⟨_, webcamOn_fst lib info w⟩
  · exact ⟨_, webcamOff_fst lib info w⟩

/-- C4, as amended: for every exports object that takes plain writes of the
keys `webcamOn` and `webcamOff` (neither it nor an object of its prototype
chain is a proxy or holds the key as an accessor or read-only property, and
it is extensible or has the key already), whatever the script side of the
runtime, `Init` returns that same object; afterwards its key `webcamOn` holds
the function running the `webcamOn` wrapper and its key `webcamOff` the
function running the `webcamOff` wrapper; every other key of the exports
object, its other attributes, and every other object are as they were. -/
theorem Init_exports_plain (script : Script) (env : Env) (exports : Object) (heap : Heap)
    (hon : assignable heap exports.handle "webcamOn" = true)
    (hoff : assignable heap exports.handle "webcamOff" = true) :
    ∃ heap2 : Heap, Init script env exports heap = Except.ok (exports, heap2) ∧
      (heap2 exports.handle).props "webcamOn"
        = some (Property.data (Function.New env Callback.webcamOn) true) ∧
      (heap2 exports.handle).props "webcamOff"
        = some (Property.data (Function.New env Callback.webcamOff) true) ∧
      (∀ (σ : Type) (lib : VendorLib σ) (info : CallbackInfo) (w : World σ),
        runCallback Callback.webcamOn lib info w = webcamOn lib info w ∧
        runCallback Callback.webcamOff lib info w = webcamOff lib info w) ∧
      (∀ k : String, k ≠ "webcamOn" → k ≠ "webcamOff" →
        (heap2 exports.handle).props k = (heap exports.handle).props k) ∧
      (heap2 exports.handle).extensible = (heap exports.handle).extensible ∧
      (heap2 exports.handle).chain = (heap exports.handle).chain ∧
      (heap2 exports.handle).exotic = (heap exports.handle).exotic ∧
      (∀ h : Handle, h ≠ exports.handle → heap2 h = heap h) := by
  refine ⟨_, Init_of_assignable script env exports heap hon hoff, ?_, ?_,
    fun _ _ _ _ => ⟨rfl, rfl⟩, ?_, ?_, ?_, ?_, ?_⟩
  · rw [writeOwn_other_key _ _ _ _ _ (by decide), writeOwn_same]
    rfl
  · rw [writeOwn_same]
    rfl
  · intro k k1 k2
    rw [writeOwn_other_key _ _ _ _ _ k2, writeOwn_other_key _ _ _ _ _ k1]
  · rw [(writeOwn_attrs _ _ _ _ _).1, (writeOwn_attrs _ _ _ _ _).1]
  · rw [(writeOwn_attrs _ _ _ _ _).2.1, (writeOwn_attrs _ _ _ _ _).2.1]
  · rw [(writeOwn_attrs _ _ _ _ _).2.2, (writeOwn_attrs _ _ _ _ _).2.2]
  · intro h hne
    rw [writeOwn_other_object _ _ _ _ _ hne, writeOwn_other_object _ _ _ _ _ hne]

theorem Init_exports_plain_witness :
    assignable sampleHeap sampleExports.handle "webcamOn" = true ∧
    assignable sampleHeap sampleExports.handle "webcamOff" = true ∧
    ∃ heap2 : Heap,
      Init sampleScript sampleEnv sampleExports sampleHeap = Except.ok (sampleExports, heap2) ∧
      (heap2 sampleExports.handle).props "webcamOn"
        = some (Property.data (Function.New sampleEnv Callback.webcamOn) true) ∧
      (heap2 sampleExports.handle).props "webcamOff"
        = some (Property.data (Function.New sampleEnv Callback.webcamOff) true) ∧
      (∀ (σ : Type) (lib : VendorLib σ) (info : CallbackInfo) (w : World σ),
        runCallback Callback.webcamOn lib info w = webcamOn lib info w ∧
        runCallback Callback.webcamOff lib info w = webcamOff lib info w) ∧
      (∀ k : String, k ≠ "webcamOn" → k ≠ "webcamOff" →
        (heap2 sampleExports.handle).props k = (sampleHeap sampleExports.handle).props k) ∧
      (heap2 sampleExports.handle).extensible = (sampleHeap sampleExports.handle).extensible ∧
      (heap2 sampleExports.handle).chain = (sampleHeap sampleExports.handle).chain ∧
      (heap2 sampleExports.handle).exotic = (sampleHeap sampleExports.handle).exotic ∧
      (∀ h : Handle, h ≠ sampleExports.handle → heap2 h = sampleHeap h) :=
  ⟨by decide, by decide,
    Init_exports_plain sampleScript sampleEnv sampleExports sampleHeap (by decide) (by decide)⟩

/-- C4 as stated fails: on a frozen exports object `Init` does not end with
the keys `webcamOn` and `webcamOff` bound to the two wrappers. -/
theorem Init_exports_frozen_counterexample :
    ¬ ∃ heap2 : Heap,
      Init sampleScript sampleEnv sampleExports frozenHeap
        = Except.ok (sampleExports, heap2) ∧
      (∃ wr : Bool, (heap2 sampleExports.handle).props "webcamOn"
        = some (Property.data (Function.New sampleEnv Callback.webcamOn) wr)) ∧
      (∃ wr : Bool, (heap2 sampleExports.handle).props "webcamOff"
        = some (Property.data (Function.New sampleEnv Callback.webcamOff) wr)) := by
  rintro ⟨heap2, hinit, ⟨wr, hw⟩, _⟩
  rw [Init_frozen] at hinit
  have h2 : frozenHeap = heap2 := by
    injection hinit with hinit
    exact (Prod.mk.inj hinit).2
  subst h2
  simp [frozenHeap, sampleExports] at hw

/-- C5: with the vendor library modelled as a log of calls, one invocation of
`webcamOn` appends exactly the one entry `webcam_on` to the log and one
invocation of `webcamOff` exactly the one entry `webcam_off`, whatever the
result code: the number of logged calls of the function grows by one, that of
the opposite function stays the same, and the controller state is the one
left by a single vendor call. -/
theorem wrappers_log_one_call {σ : Type} (lib : VendorLib σ) (info : CallbackInfo)
    (w : World σ) :
    ((webcamOn lib info w).2.log = w.log ++ [VendorCall.webcam_on] ∧
     (webcamOn lib info w).2.log.count VendorCall.webcam_on
       = w.log.count VendorCall.webcam_on + 1 ∧
     (webcamOn lib info w).2.log.count VendorCall.webcam_off
       = w.log.count VendorCall.webcam_off ∧
     (webcamOn lib info w).2.ec = (lib.webcam_on w.ec).2) ∧
    ((webcamOff lib info w).2.log = w.log ++ [VendorCall.webcam_off] ∧
     (webcamOff lib info w).2.log.count VendorCall.webcam_off
       = w.log.count VendorCall.webcam_off + 1 ∧
     (webcamOff lib info w).2.log.count VendorCall.webcam_on
       = w.log.count VendorCall.webcam_on ∧
     (webcamOff lib info w).2.ec = (lib.webcam_off w.ec).2) := by
  rw [webcamOn_snd, webcamOff_snd]
  simp [List.count_append, List.count_singleton]

/-- C6: `webcamOn` and `webcamOff` map result codes to booleans in the same
way: if `webcam_on()` and `webcam_off()` yield the same code `r`, in whatever
calls and worlds, the two wrappers return the same boolean. -/
theorem wrappers_same_mapping {σ : Type} (lib : VendorLib σ) (info₁ info₂ : CallbackInfo)
    (w₁ w₂ : World σ) (r : Int) (hon : (lib.webcam_on w₁.ec).1 = r)
    (hoff : (lib.webcam_off w₂.ec).1 = r) :
    (webcamOn lib info₁ w₁).1 = (webcamOff lib info₂ w₂).1 := by
  rw [webcamOn_fst, webcamOff_fst, hon, hoff]

theorem wrappers_same_mapping_witness :
    (sampleLib.webcam_on freshWorld.ec).1 = 0 ∧
    (sampleLib.webcam_off freshWorld.ec).1 = 0 ∧
    (webcamOn sampleLib plainInfo freshWorld).1 = (webcamOff sampleLib busyInfo freshWorld).1 :=
  ⟨by decide, by decide,
    wrappers_same_mapping sampleLib plainInfo busyInfo freshWorld freshWorld 0
      (by decide) (by decide)⟩

/-- C7: the wrappers keep no state and ignore their arguments: two
invocations of `webcamOn` (and likewise two of `webcamOff`), with any two
`CallbackInfo`s and in any two worlds, hence after any earlier invocations,
return the same boolean whenever the vendor function returns the same result
code in both. -/
theorem wrappers_stateless {σ : Type} (lib : VendorLib σ) (info₁ info₂ : CallbackInfo)
    (w₁ w₂ : World σ) :
    ((lib.webcam_on w₁.ec).1 = (lib.webcam_on w₂.ec).1 →
      (webcamOn lib info₁ w₁).1 = (webcamOn lib info₂ w₂).1) ∧
    ((lib.webcam_off w₁.ec).1 = (lib.webcam_off w₂.ec).1 →
      (webcamOff lib info₁ w₁).1 = (webcamOff lib info₂ w₂).1) := by
  constructor
  · intro h
    rw [webcamOn_fst, webcamOn_fst, h]
  · intro h
    rw [webcamOff_fst, webcamOff_fst, h]

theorem wrappers_stateless_witness :
    ((sampleLib.webcam_on usedWorld.ec).1 = (sampleLib.webcam_on laterWorld.ec).1 ∧
      (webcamOn sampleLib plainInfo usedWorld).1 = (webcamOn sampleLib busyInfo laterWorld).1) ∧
    ((sampleLib.webcam_off usedWorld.ec).1 = (sampleLib.webcam_off laterWorld.ec).1 ∧
      (webcamOff sampleLib plainInfo usedWorld).1
        = (webcamOff sampleLib busyInfo laterWorld).1) :=
  ⟨⟨by decide,
      (wrappers_stateless sampleLib plainInfo busyInfo usedWorld laterWorld).1 (by decide)⟩,
    ⟨by decide,
      (wrappers_stateless sampleLib plainInfo busyInfo usedWorld laterWorld).2 (by decide)⟩⟩

end TuxedoEC
